import Mathlib

/-!
# Verification of the WedsPlanner guest-list data core

A shallow embedding of `src/wedding_planner.py` (a pandas/streamlit guest-list
tracker).  The persistent store is a CSV file; in memory the data lives in a
pandas `DataFrame`.  We model a data frame column-orientedly, as an ordered
association list from column names to lists of cell values, which matches how
every pandas operation used by the program acts (column insertion, column-wise
`fillna`/`astype`, boolean-mask row filtering, column projection).

A CSV file is modelled structurally as the same shape with raw string cells
(`CsvFile`): the comma/quote text layer of `to_csv`/`read_csv` round-trips
cell contents exactly, and is rendered separately by `to_csv` for the
byte-level export claim.  `read_csv`'s per-column dtype inference is modelled
by `readCol`: a column whose cells are all integer literals becomes an int64
column; all integer literals or NA tokens becomes a float64 column of
integral floats; all integer or float literals or NA tokens becomes a
float64 column, float64 values being carried as the exact decimal `m / 10^e`
they were parsed from and rendered by `renderFloat` in Python's canonical
decimal form (`"1.50"` comes back as `"1.5"`, `"1e3"` as `"1000.0"`); all
boolean literals becomes a bool column; otherwise cells stay strings with
the full default NA-token list becoming missing values.

Exact decimals are faithful to binary float64 only up to double precision
and the plain-decimal display range, so the round-trip claim additionally
guards its text columns with `goodTextCell`, which confines certification
to cells on which this inference provably coincides with pandas (no float
literals or nan/inf words, no non-empty NA tokens, no whitespace-wrapped
numerals, integer numerals within int64).
-/

set_option autoImplicit false

namespace WedsPlanner

/-- A pandas cell value: a string, an int64, a float64, a bool, or a
missing value (NaN).  A float64 is modelled by the exact decimal value
`m / 10 ^ e` it was parsed from (or `m` with `e = 0` for the integral
floats an int column with missing entries becomes); see `renderFloat` for
its `str()` rendering. -/
inductive Value where
  | str : String → Value
  | int : Int → Value
  | float : Int → Nat → Value
  | bool : Bool → Value
  | na : Value
deriving DecidableEq, Repr

/-- In-memory data frame: ordered columns, each a name with its cells. -/
abbrev Frame := List (String × List Value)

/-- Structural content of a CSV file: ordered columns of raw text cells. -/
abbrev CsvFile := List (String × List String)

/-! ## Decimal rendering and parsing of integers

`to_csv` writes int64 cells as plain decimal numerals; `read_csv` parses
signed decimal numerals.  We render with an explicit fuel recursion so that
everything reduces in the kernel, and prove the round trip. -/

/-- The decimal digit character for `d` (defined by cases so that all facts
about it are decidable). -/
def digitChar10 : Nat → Char
  | 0 => '0' | 1 => '1' | 2 => '2' | 3 => '3' | 4 => '4'
  | 5 => '5' | 6 => '6' | 7 => '7' | 8 => '8' | _ => '9'

/-- Numeric value of a decimal digit character. -/
def charDigit (c : Char) : Nat := c.toNat - 48

/-- Big-endian decimal digits of `n` (empty for `0`), with enough fuel. -/
def renderNatAux : Nat → Nat → List Char
  | 0, _ => []
  | fuel + 1, n => if n = 0 then [] else renderNatAux fuel (n / 10) ++ [digitChar10 (n % 10)]

/-- Decimal numeral of a natural number, as characters. -/
def renderNatChars (n : Nat) : List Char :=
  if n = 0 then ['0'] else renderNatAux n n

/-- Decimal numeral of an integer, as characters. -/
def renderIntChars (n : Int) : List Char :=
  if 0 ≤ n then renderNatChars n.toNat else '-' :: renderNatChars n.natAbs

/-- Decimal numeral of an integer (what `to_csv` writes for an int64 cell). -/
def renderInt (n : Int) : String := String.mk (renderIntChars n)

/-- Serialization of a bool cell: the literal `True`/`False` tokens. -/
def renderBool (b : Bool) : String := if b then "True" else "False"

/-- Horner evaluation of a big-endian digit-character list. -/
def parseNatChars (cs : List Char) : Nat :=
  cs.foldl (fun a c => a * 10 + charDigit c) 0

/-- Does this character list form a signed decimal integer literal? -/
def isIntLitChars : List Char → Bool
  | [] => false
  | c :: r =>
    if c = '+' ∨ c = '-' then decide (r ≠ []) && r.all Char.isDigit
    else (c :: r).all Char.isDigit

/-- Parse a signed decimal integer literal. -/
def parseIntChars : List Char → Int
  | [] => 0
  | c :: r =>
    if c = '-' then -(parseNatChars r : Int)
    else if c = '+' then (parseNatChars r : Int)
    else (parseNatChars (c :: r) : Int)

/-- Strip one optional leading sign character. -/
def stripSign : List Char → List Char
  | '+' :: r => r
  | '-' :: r => r
  | cs => cs

/-- Exponent tail of a float literal after the `e`/`E`: optional sign then
at least one digit. -/
def expDigits (r : List Char) : Bool :=
  let r1 := stripSign r
  decide (r1 ≠ []) && r1.all Char.isDigit

/-- Recognizer for the proper float literals `read_csv`'s numeric
conversion accepts beyond plain integers: an optional sign, then either a
decimal form with a point (`1.5`, `.5`, `5.`, digits on at least one side)
or a plain integer part, with an optional (mandatory in the pointless
case) `e`/`E` exponent. -/
def isFloatLitChars (cs : List Char) : Bool :=
  let cs1 := stripSign cs
  let ip := cs1.takeWhile Char.isDigit
  let rest := cs1.dropWhile Char.isDigit
  match rest with
  | '.' :: r =>
    let fp := r.takeWhile Char.isDigit
    let rest2 := r.dropWhile Char.isDigit
    (!(ip.isEmpty && fp.isEmpty)) &&
      (match rest2 with
       | [] => true
       | c :: r2 => (c = 'e' ∨ c = 'E') && expDigits r2)
  | c :: r => (c = 'e' ∨ c = 'E') && !ip.isEmpty && expDigits r
  | [] => false

/-- Parse a float literal into its exact decimal value `m / 10 ^ e`
(intended for inputs satisfying `isFloatLitChars`). -/
def parseFloatChars (cs : List Char) : Int × Nat :=
  let sgn : Int := match cs with
    | '-' :: _ => -1
    | _ => 1
  let cs1 := stripSign cs
  let ip := cs1.takeWhile Char.isDigit
  let rest := cs1.dropWhile Char.isDigit
  let fp := match rest with
    | '.' :: r => r.takeWhile Char.isDigit
    | _ => []
  let rest2 := match rest with
    | '.' :: r => r.dropWhile Char.isDigit
    | r => r
  let k : Int := match rest2 with
    | _ :: r =>
      match r with
      | '-' :: r2 => -(parseNatChars r2 : Int)
      | '+' :: r2 => (parseNatChars r2 : Int)
      | r2 => (parseNatChars r2 : Int)
    | [] => 0
  let m0 : Int := (parseNatChars (ip ++ fp) : Int)
  let e0 : Int := (fp.length : Int) - k
  if e0 ≤ 0 then (sgn * m0 * (10 : Int) ^ (-e0).toNat, 0)
  else (sgn * m0, e0.toNat)

/-- Normalize a decimal `m / 10 ^ e` by stripping trailing zero digits. -/
def normFloat : Int → Nat → Int × Nat
  | m, 0 => (m, 0)
  | m, e + 1 => if m % 10 = 0 then normFloat (m / 10) e else (m, e + 1)

/-- Python `str()` of a float64 holding the decimal value `m / 10 ^ e`:
the canonical shortest decimal form, with a mandatory `.0` tail on
integral values (`str(15.0) = "15.0"`, `str(0.015) = "0.015"`). -/
def renderFloat (m : Int) (e : Nat) : String :=
  match normFloat m e with
  | (m1, 0) => String.mk (renderIntChars m1 ++ ['.', '0'])
  | (m1, e1) =>
    let ds := renderNatChars m1.natAbs
    let sign : List Char := if m1 < 0 then ['-'] else []
    if e1 < ds.length then
      String.mk (sign ++ ds.take (ds.length - e1) ++ ['.'] ++ ds.drop (ds.length - e1))
    else
      String.mk (sign ++ ['0', '.'] ++ List.replicate (e1 - ds.length) '0' ++ ds)

/-! ## CSV cells: serialization (`to_csv`) and parsing (`read_csv`) -/

/-- Raw text that `to_csv` writes for one cell (before CSV quoting). -/
def writeCell : Value → String
  | .str s => s
  | .int n => renderInt n
  | .float m e => renderFloat m e
  | .bool b => renderBool b
  | .na => ""

/-- The default NA tokens of `read_csv` (pandas `STR_NA_VALUES`). -/
def naTokens : List String :=
  ["", "#N/A", "#N/A N/A", "#NA", "-1.#IND", "-1.#QNAN", "-NaN", "-nan",
   "1.#IND", "1.#QNAN", "<NA>", "N/A", "NA", "NULL", "NaN", "None",
   "n/a", "nan", "null"]

/-- Is this raw cell one of the default NA tokens? -/
def isNaTok (s : String) : Bool := naTokens.contains s

/-- Is this raw cell a signed decimal integer literal? -/
def isIntLit (s : String) : Bool := isIntLitChars s.toList

/-- Is this raw cell a proper (non-integer) float literal? -/
def isFloatLit (s : String) : Bool := isFloatLitChars s.toList

/-- Parse a float-literal raw cell into its exact decimal value. -/
def parseFloatLit (s : String) : Int × Nat := parseFloatChars s.toList

/-- The boolean literals `read_csv`'s parser recognizes. -/
def isBoolLit (s : String) : Bool := ["True", "TRUE", "False", "FALSE"].contains s

/-- Parse a recognized boolean literal. -/
def parseBoolLit (s : String) : Bool := ["True", "TRUE"].contains s

/-- Parse a signed decimal integer literal from a raw cell. -/
def parseIntLit (s : String) : Int := parseIntChars s.toList

/-- Model of the per-column dtype inference of `read_csv`: int64 when every cell is an
integer literal; float64 (integral floats in this model) when every cell is
an integer literal or an NA token; bool when every cell is a boolean
literal; object with missing values otherwise.  (Decimal float literals are
not modelled and stay strings; see the header comment.) -/
def readCol (raws : List String) : List Value :=
  if raws.all isIntLit then
    raws.map (fun s => Value.int (parseIntLit s))
  else if raws.all (fun s => isIntLit s || isNaTok s) then
    raws.map (fun s => if isNaTok s then Value.na else Value.float (parseIntLit s) 0)
  else if raws.all (fun s => isIntLit s || isFloatLit s || isNaTok s) then
    raws.map (fun s =>
      if isNaTok s then Value.na
      else if isFloatLit s then Value.float (parseFloatLit s).1 (parseFloatLit s).2
      else Value.float (parseIntLit s) 0)
  else if raws.all isBoolLit then
    raws.map (fun s => Value.bool (parseBoolLit s))
  else if raws.all (fun s => isBoolLit s || isNaTok s) then
    raws.map (fun s => if isNaTok s then Value.na else Value.bool (parseBoolLit s))
  else
    raws.map (fun s => if isNaTok s then Value.na else Value.str s)

/-- Model of `pd.read_csv`: parse every column of the stored file. -/
def read_csv (f : CsvFile) : Frame :=
  f.map (fun p => (p.1, readCol p.2))

/-- Structural content of the CSV file `df.to_csv` produces: every cell
serialized to its raw text. -/
def writeCsv (df : Frame) : CsvFile :=
  df.map (fun p => (p.1, p.2.map writeCell))

/-! ### Flat CSV text (for the byte-level export claim) -/

/-- Does this field need CSV quoting (contains delimiter, quote or newline)? -/
def needsQuote (s : String) : Bool :=
  s.toList.any (fun c => c = ',' ∨ c = '\"' ∨ c = '\n' ∨ c = '\r')

/-- Double every quote character (CSV escaping inside a quoted field). -/
def escQuotes : List Char → List Char
  | [] => []
  | c :: cs => if c = '\"' then '\"' :: '\"' :: escQuotes cs else c :: escQuotes cs

/-- One CSV field, quoted if necessary (QUOTE_MINIMAL). -/
def csvField (s : String) : String :=
  if needsQuote s then String.mk ('\"' :: escQuotes s.toList ++ ['\"']) else s

/-- Number of rows of a frame (`len(df)`); columns of a well-formed frame
all have this length. -/
def nrows : Frame → Nat
  | [] => 0
  | p :: _ => p.2.length

/-- One serialized CSV line. -/
def csvLine (fields : List String) : String :=
  String.intercalate "," (fields.map csvField) ++ "\n"

/-- Model of `df.to_csv(index=False)`: header line then one line per row, comma
delimited, minimally quoted, every line `\n`-terminated. -/
def to_csv (df : Frame) : String :=
  csvLine (df.map (fun p => p.1)) ++
    String.join ((List.range (nrows df)).map
      (fun i => csvLine (df.map (fun p => writeCell (p.2.getD i Value.na)))))

/-- UTF-8 bytes of a string, as naturals. -/
def utf8Bytes (s : String) : List Nat :=
  s.toUTF8.toList.map (fun b => b.toNat)

/-! ## Frame operations (the pandas operations the program uses) -/

/-- Look up a column by name (first match, like a pandas column access);
generic over the cell type so it applies to frames and stored files. -/
def getCol? {α : Type} : List (String × α) → String → Option α
  | [], _ => none
  | p :: ps, c => if p.1 = c then some p.2 else getCol? ps c

/-- Column lookup with default `[]` (total version for definitions). -/
def getColD (df : Frame) (c : String) : List Value :=
  (getCol? df c).getD []

/-- Test `c in df.columns` (generic over the cell type). -/
def hasCol {α : Type} : List (String × α) → String → Bool
  | [], _ => false
  | p :: ps, c => if p.1 = c then true else hasCol ps c

/-- Assignment `df[c] = vs`: replace the column if present, else append it. -/
def setCol (df : Frame) (c : String) (vs : List Value) : Frame :=
  if hasCol df c then
    df.map (fun p => if p.1 = c then (p.1, vs) else p)
  else df ++ [(c, vs)]

/-- Update `df[c] = df[c].map g` guarded by `c in df.columns` (no-op when absent). -/
def mapCol (c : String) (g : Value → Value) (df : Frame) : Frame :=
  df.map (fun p => if p.1 = c then (p.1, p.2.map g) else p)

/-- Effectful `List.map` in `Option` (used for coercions that can raise). -/
def mapMOpt {α β : Type} (f : α → Option β) : List α → Option (List β)
  | [] => some []
  | x :: xs =>
    match f x, mapMOpt f xs with
    | some y, some ys => some (y :: ys)
    | _, _ => none

/-- Update `df[c] = df[c].map g` where `g` can raise (pandas `astype(int)` on a
non-numeric cell raises `ValueError`); absent columns are left alone. -/
def mapColO (c : String) (g : Value → Option Value) (df : Frame) : Option Frame :=
  mapMOpt (fun p => if p.1 = c then (mapMOpt g p.2).map (fun vs => (p.1, vs)) else some p) df

/-- Projection `df[cols]`: project to the named columns in the given order; raises
(`KeyError`, modelled as `none`) when one is absent. -/
def reindex (cs : List String) (df : Frame) : Option Frame :=
  mapMOpt (fun c => (getCol? df c).map (fun vs => (c, vs))) cs

/-- Keep the rows selected by a boolean mask. -/
def applyMask {α : Type} : List Bool → List α → List α
  | b :: ms, x :: xs => if b then x :: applyMask ms xs else applyMask ms xs
  | _, _ => []

/-- Selection `df[mask]`: boolean-mask row filtering, column by column. -/
def filterFrame (df : Frame) (mask : List Bool) : Frame :=
  df.map (fun p => (p.1, applyMask mask p.2))

/-- Python `x == True`, elementwise (`1 == True` holds in Python). -/
def pyEqTrue : Value → Bool
  | .bool b => b
  | .int n => decide (n = 1)
  | .float m e => decide (m = (10 : Int) ^ e)
  | _ => false

/-- Elementwise `x > 0` as pandas evaluates it on the values the program
stores (ints and, defensively, floats/bools; NaN compares false). -/
def pyGtZero : Value → Bool
  | .int n => decide (0 < n)
  | .float m _ => decide (0 < m)
  | .bool b => b
  | _ => false

/-- Elementwise `Series.isin(opts)` for the string options the program uses. -/
def valueIsin (v : Value) (opts : List String) : Bool :=
  match v with
  | .str s => opts.contains s
  | _ => false

/-- Numeric value of a cell for `Series.sum()` (missing values count 0,
matching pandas's default `skipna=True`). -/
def valueNum : Value → Int
  | .int n => n
  | .float m e => Int.tdiv m ((10 : Int) ^ e)
  | .bool b => cond b 1 0
  | _ => 0

/-- Model of `Series.sum()` on a column. -/
def seriesSum (vs : List Value) : Int :=
  vs.foldl (fun a v => a + valueNum v) 0

/-! ## The Store: `load_data`, `save_data`, `convert_df` -/

/-- The master schema (`COLUMNS` in the source). -/
def COLUMNS : List String :=
  ["Name", "Category", "City", "Mobile", "Event",
   "Headcount", "Rooms Required", "Invite Given", "Notes"]

/-- The text columns forced to strings by `load_data`. -/
def text_cols : List String :=
  ["Name", "Category", "City", "Mobile", "Event", "Notes"]

/-- The migration lambda `lambda x: 1 if x == True else 0` applied to each
legacy `Accommodation Needed` cell. -/
def accToRooms (v : Value) : Value :=
  if pyEqTrue v then Value.int 1 else Value.int 0

/-- Migration step of `load_data`: if the stored data has the legacy
`Accommodation Needed` column and no `Rooms Required` column, derive
`Rooms Required` from it. -/
def migrate (df : Frame) : Frame :=
  if hasCol df "Accommodation Needed" && !hasCol df "Rooms Required" then
    setCol df "Rooms Required" ((getColD df "Accommodation Needed").map accToRooms)
  else df

/-- Per-column default used when a canonical column is missing. -/
def defaultCell (c : String) : Value :=
  if c = "Headcount" then Value.int 1
  else if c = "Rooms Required" then Value.int 0
  else if c = "Invite Given" then Value.bool false
  else Value.str ""

/-- Column-completion step of `load_data`: add every missing canonical
column, filled with its default (broadcast over the current rows). -/
def complete (df : Frame) : Frame :=
  COLUMNS.foldl
    (fun d c => if hasCol d c then d else setCol d c (List.replicate (nrows d) (defaultCell c)))
    df

/-- Effect of `fillna d` on one cell. -/
def fillna (d : Value) (v : Value) : Value :=
  if v = Value.na then d else v

/-- Effect of `astype(str)` on one cell (Python `str(x)` rendering). -/
def astypeStr : Value → String
  | .str s => s
  | .int n => renderInt n
  | .float m e => renderFloat m e
  | .bool b => renderBool b
  | .na => "nan"

/-- Effect of `astype(int)` on one cell; raises (`none`) on NaN or a non-numeric
string, as pandas does. -/
def astypeInt : Value → Option Int
  | .int n => some n
  | .float m e => some (Int.tdiv m ((10 : Int) ^ e))
  | .bool b => some (cond b 1 0)
  | .str s => if isIntLit s then some (parseIntLit s) else none
  | .na => none

/-- Effect of `astype(bool)` on one cell: Python truthiness on object cells (any
nonempty string is truthy, including `"False"`). -/
def astypeBool : Value → Bool
  | .bool b => b
  | .int n => decide (n ≠ 0)
  | .float m _ => decide (m ≠ 0)
  | .str s => decide (s ≠ "")
  | .na => true

/-- Combined `fillna("").astype(str)` on one cell of a text column. -/
def textCoerceCell (v : Value) : Value :=
  Value.str (astypeStr (fillna (Value.str "") v))

/-- Combined `fillna(d).astype(int)` on one cell of a numeric column. -/
def intCoerceCell (d : Int) (v : Value) : Option Value :=
  (astypeInt (fillna (Value.int d) v)).map Value.int

/-- Combined `fillna(False).astype(bool)` on one cell of the boolean column. -/
def boolCoerceCell (v : Value) : Value :=
  Value.bool (astypeBool (fillna (Value.bool false) v))

/-- Type-safety section of `load_data`: force text columns to strings,
`Headcount`/`Rooms Required` to ints (defaults 1 and 0), `Invite Given` to
bool; `none` models the `ValueError` pandas raises on an unconvertible
numeric cell. -/
def coerceTypes (df : Frame) : Option Frame :=
  let df1 := text_cols.foldl (fun d c => mapCol c textCoerceCell d) df
  (mapColO "Headcount" (intCoerceCell 1) df1).bind fun df2 =>
    (mapColO "Rooms Required" (intCoerceCell 0) df2).map fun df3 =>
      mapCol "Invite Given" boolCoerceCell df3

/-- The empty frame `pd.DataFrame(columns=COLUMNS)`. -/
def emptyFrame : Frame := COLUMNS.map (fun c => (c, ([] : List Value)))

/-- Model of `load_data()`: read the stored file when it exists (else start from the
empty canonical frame), migrate the legacy column, complete missing
columns, coerce types, and project to exactly the canonical columns in
order.  `none` models an uncaught exception. -/
def load_data (file : Option CsvFile) : Option Frame :=
  let df :=
    match file with
    | some f => complete (migrate (read_csv f))
    | none => emptyFrame
  (coerceTypes df).bind (reindex COLUMNS)

/-- Model of `save_data(df)`: the full text content written over the backing file
(`df.to_csv(DB_FILE, index=False)`). -/
def save_data (df : Frame) : String := to_csv df

/-- The structural CSV content that `save_data` leaves in the backing file
(what a subsequent `load_data` will read). -/
def savedFile (df : Frame) : CsvFile := writeCsv df

/-- Model of `convert_df(df)`: the download buffer produced by the call `df.to_csv(index=False).encode('utf-8')`. -/
def convert_df (df : Frame) : List Nat := utf8Bytes (to_csv df)

/-! ## The Aggregator -/

/-- Count `len(df)` (`total_families` in the source: one record per family). -/
def total_families (df : Frame) : Nat := nrows df

/-- Count `len(df[df["Invite Given"] == True])`. -/
def invites_sent (df : Frame) : Nat :=
  nrows (filterFrame df ((getColD df "Invite Given").map pyEqTrue))

/-- Difference `pending = total_families - invites_sent` (Python integer subtraction). -/
def pending (df : Frame) : Int :=
  (total_families df : Int) - (invites_sent df : Int)

/-- Sum `df[df["Event"].isin(["Reception", "Both"])]["Headcount"].sum()`. -/
def reception_total (df : Frame) : Int :=
  seriesSum (getColD (filterFrame df ((getColD df "Event").map
    (fun v => valueIsin v ["Reception", "Both"]))) "Headcount")

/-- Sum `df[df["Event"].isin(["Wedding (Mugurtham)", "Both"])]["Headcount"].sum()`. -/
def wedding_total (df : Frame) : Int :=
  seriesSum (getColD (filterFrame df ((getColD df "Event").map
    (fun v => valueIsin v ["Wedding (Mugurtham)", "Both"]))) "Headcount")

/-- Sum `df["Rooms Required"].sum()`. -/
def total_rooms (df : Frame) : Int :=
  seriesSum (getColD df "Rooms Required")

/-- Table `df[df["Rooms Required"] > 0][["Name", "City", "Rooms Required", "Mobile"]]`. -/
def room_df (df : Frame) : Option Frame :=
  reindex ["Name", "City", "Rooms Required", "Mobile"]
    (filterFrame df ((getColD df "Rooms Required").map pyGtZero))

/-! ## Canonical in-memory tables and the add-guest flow -/

/-- One guest record in canonical normalized form: the nine fields with
their canonical types. -/
structure Guest where
  name : String
  category : String
  city : String
  mobile : String
  event : String
  headcount : Int
  rooms : Int
  invite : Bool
  notes : String
deriving DecidableEq, Repr

/-- The canonical normalized frame holding the given records: exactly the
nine canonical columns in canonical order, text cells as strings, the two
numeric columns as ints, `Invite Given` as bool. -/
def frameOfGuests (gs : List Guest) : Frame :=
  [("Name", gs.map (fun g => Value.str g.name)),
   ("Category", gs.map (fun g => Value.str g.category)),
   ("City", gs.map (fun g => Value.str g.city)),
   ("Mobile", gs.map (fun g => Value.str g.mobile)),
   ("Event", gs.map (fun g => Value.str g.event)),
   ("Headcount", gs.map (fun g => Value.int g.headcount)),
   ("Rooms Required", gs.map (fun g => Value.int g.rooms)),
   ("Invite Given", gs.map (fun g => Value.bool g.invite)),
   ("Notes", gs.map (fun g => Value.str g.notes))]

/-- New-entry frame built by the add-guest form from the nine fields. -/
def new_entry (g : Guest) : Frame := frameOfGuests [g]

/-- Model of `pd.concat([a, b], ignore_index=True)`: align by column names (first
frame's order, then columns only in the second), NaN-filling the gaps. -/
def concatFrames (a b : Frame) : Frame :=
  a.map (fun p => (p.1, p.2 ++ (getCol? b p.1).getD (List.replicate (nrows b) Value.na))) ++
    (b.filter (fun q => !hasCol a q.1)).map
      (fun q => (q.1, List.replicate (nrows a) Value.na ++ q.2))

/-- The add-guest submit handler: on `if submitted and name:` it appends
the new record and saves; otherwise nothing happens.  The boolean result
records whether a save occurred; the function is total (no error value). -/
def add_guest_submit (data : Frame) (submitted : Bool) (g : Guest) : Frame × Bool :=
  if submitted && !(g.name == "") then (concatFrames data (new_entry g), true)
  else (data, false)

/-- A text column whose stored raw cells re-coerce to exactly the original
string cells after `read_csv`'s dtype inference and the string coercion of
`load_data`.  Ordinary text survives; pandas breaks it for, e.g.,
leading-zero numerals (`"01"` comes back as `"1"`) and NA tokens
(`"None"` comes back as `""`). -/
def textRoundTrips (ss : List String) : Prop :=
  (readCol ss).map textCoerceCell = ss.map Value.str

instance (ss : List String) : Decidable (textRoundTrips ss) := by
  unfold textRoundTrips
  infer_instance

/-- Word tokens the numeric converter of `read_csv` also accepts
case-insensitively (producing NaN or infinity) although they are not in
the NA-token list. -/
def specialFloatTok (s : String) : Bool :=
  ["nan", "+nan", "-nan", "inf", "+inf", "-inf",
   "infinity", "+infinity", "-infinity"].contains (String.mk (s.toList.map Char.toLower))

/-- Whitespace-trimmed character list of a cell. -/
def trimmedChars (cs : List Char) : List Char :=
  ((cs.dropWhile Char.isWhitespace).reverse.dropWhile Char.isWhitespace).reverse

/-- Largest int64 value. -/
def int64Max : Int := 9223372036854775807

/-- Guard keeping a text cell inside the region where this model's column
inference provably coincides with pandas: no NA token other than the
empty string; no float literal and no nan/inf word (float64 is modelled
by exact decimals, not binary doubles, so float-literal cells are simply
excluded rather than certified); no numeral, NA token or nan/inf word
hidden behind surrounding whitespace (the numeric converters trim); and
integer numerals within int64 (pandas silently promotes larger numerals
to float64).  The guard is deliberately conservative: a cell like "1.5"
does round trip in reality, but certifying it would need bit-exact double
semantics. -/
def goodTextCell (s : String) : Bool :=
  (s == "" || !isNaTok s) &&
  !isFloatLitChars s.toList &&
  !specialFloatTok s &&
  !(decide (trimmedChars s.toList ≠ s.toList) &&
    (isIntLitChars (trimmedChars s.toList) || isFloatLitChars (trimmedChars s.toList) ||
     isNaTok (String.mk (trimmedChars s.toList)) ||
     specialFloatTok (String.mk (trimmedChars s.toList)))) &&
  (!isIntLitChars s.toList ||
    (decide (-int64Max - 1 ≤ parseIntChars s.toList) && decide (parseIntChars s.toList ≤ int64Max)))

/-- Hypothesis of the amended round-trip claim, per text column: the
column is read-stable in the model (`textRoundTrips`) and every cell lies
in the region where the model's dtype inference provably matches pandas
(`goodTextCell`). -/
def textColStable (ss : List String) : Prop :=
  textRoundTrips ss ∧ ss.all goodTextCell = true

instance (ss : List String) : Decidable (textColStable ss) := by
  unfold textColStable
  infer_instance

/-! ## Supporting lemmas -/

theorem charDigit_digitChar10 {d : Nat} (h : d < 10) : charDigit (digitChar10 d) = d := by
  interval_cases d <;> decide

theorem isDigit_digitChar10 {d : Nat} (h : d < 10) : (digitChar10 d).isDigit = true := by
  interval_cases d <;> decide

theorem parseNatChars_append_digit (cs : List Char) (c : Char) :
    parseNatChars (cs ++ [c]) = parseNatChars cs * 10 + charDigit c := by
  simp [parseNatChars, List.foldl_append]

theorem parseNatChars_renderNatAux : ∀ (fuel n : Nat), n ≤ fuel →
    parseNatChars (renderNatAux fuel n) = n := by
  intro fuel
  induction fuel with
  | zero =>
    intro n hn
    have : n = 0 := Nat.le_zero.mp hn
    simp [this, renderNatAux, parseNatChars]
  | succ fuel ih =>
    intro n hn
    by_cases h0 : n = 0
    · simp [h0, renderNatAux, parseNatChars]
    · have hdiv : n / 10 ≤ fuel := by
        have : n / 10 < n := Nat.div_lt_self (Nat.pos_of_ne_zero h0) (by norm_num)
        omega
      rw [renderNatAux, if_neg h0, parseNatChars_append_digit, ih _ hdiv,
        charDigit_digitChar10 (Nat.mod_lt _ (by norm_num))]
      omega

theorem all_isDigit_renderNatAux : ∀ (fuel n : Nat),
    (renderNatAux fuel n).all Char.isDigit = true := by
  intro fuel
  induction fuel with
  | zero => intro n; simp [renderNatAux]
  | succ fuel ih =>
    intro n
    by_cases h0 : n = 0
    · simp [h0, renderNatAux]
    · rw [renderNatAux, if_neg h0]
      simp [List.all_append, ih, isDigit_digitChar10 (Nat.mod_lt _ (by norm_num))]

theorem parseNatChars_renderNatChars (n : Nat) :
    parseNatChars (renderNatChars n) = n := by
  by_cases h0 : n = 0
  · simp [h0, renderNatChars, parseNatChars, charDigit]
  · rw [renderNatChars, if_neg h0]
    exact parseNatChars_renderNatAux n n le_rfl

theorem all_isDigit_renderNatChars (n : Nat) :
    (renderNatChars n).all Char.isDigit = true := by
  by_cases h0 : n = 0
  · simp [h0, renderNatChars]
  · rw [renderNatChars, if_neg h0]
    exact all_isDigit_renderNatAux n n

theorem renderNatChars_ne_nil (n : Nat) : renderNatChars n ≠ [] := by
  by_cases h0 : n = 0
  · simp [h0, renderNatChars]
  · rw [renderNatChars, if_neg h0]
    intro hnil
    have := parseNatChars_renderNatAux n n le_rfl
    rw [hnil] at this
    simp [parseNatChars] at this
    exact h0 this.symm

theorem digit_head_not_sign {c : Char} (h : c.isDigit = true) : ¬(c = '+' ∨ c = '-') := by
  rintro (rfl | rfl) <;> simp [Char.isDigit] at h

/-- A nonempty all-digit character list is an integer literal and parses as
its Horner value. -/
theorem intLit_of_digits {cs : List Char} (hne : cs ≠ [])
    (hd : cs.all Char.isDigit = true) :
    isIntLitChars cs = true ∧ parseIntChars cs = (parseNatChars cs : Int) := by
  match cs with
  | [] => exact absurd rfl hne
  | c :: r =>
    have hc : c.isDigit = true := by
      have := List.all_eq_true.mp hd c (List.mem_cons_self c r)
      exact this
    have hsign := digit_head_not_sign hc
    constructor
    · rw [isIntLitChars, if_neg hsign]; exact hd
    · rw [parseIntChars, if_neg (fun h => hsign (Or.inr h)), if_neg (fun h => hsign (Or.inl h))]

theorem isIntLitChars_renderIntChars (n : Int) : isIntLitChars (renderIntChars n) = true := by
  by_cases h : 0 ≤ n
  · rw [renderIntChars, if_pos h]
    exact (intLit_of_digits (renderNatChars_ne_nil _) (all_isDigit_renderNatChars _)).1
  · rw [renderIntChars, if_neg h, isIntLitChars]
    simp [all_isDigit_renderNatChars, renderNatChars_ne_nil]

theorem parseIntChars_renderIntChars (n : Int) : parseIntChars (renderIntChars n) = n := by
  by_cases h : 0 ≤ n
  · rw [renderIntChars, if_pos h]
    rw [(intLit_of_digits (renderNatChars_ne_nil _) (all_isDigit_renderNatChars _)).2]
    rw [parseNatChars_renderNatChars]
    omega
  · rw [renderIntChars, if_neg h, parseIntChars, if_pos rfl, parseNatChars_renderNatChars]
    omega

@[simp] theorem writeCell_str (s : String) : writeCell (Value.str s) = s := rfl

@[simp] theorem writeCell_int (n : Int) : writeCell (Value.int n) = renderInt n := rfl

@[simp] theorem writeCell_bool (b : Bool) : writeCell (Value.bool b) = renderBool b := rfl

@[simp] theorem textCoerceCell_str (s : String) : textCoerceCell (Value.str s) = Value.str s := rfl

@[simp] theorem boolCoerceCell_bool (b : Bool) : boolCoerceCell (Value.bool b) = Value.bool b := by
  cases b <;> rfl

@[simp] theorem intCoerceCell_int (d n : Int) : intCoerceCell d (Value.int n) = some (Value.int n) := rfl

theorem isIntLit_renderInt (n : Int) : isIntLit (renderInt n) = true :=
  isIntLitChars_renderIntChars n

theorem parseIntLit_renderInt (n : Int) : parseIntLit (renderInt n) = n :=
  parseIntChars_renderIntChars n

theorem isIntLit_renderBool (b : Bool) : isIntLit (renderBool b) = false := by
  cases b <;> decide

theorem isNaTok_renderBool (b : Bool) : isNaTok (renderBool b) = false := by
  cases b <;> decide

theorem isBoolLit_renderBool (b : Bool) : isBoolLit (renderBool b) = true := by
  cases b <;> decide

theorem isFloatLit_renderBool (b : Bool) : isFloatLit (renderBool b) = false := by
  cases b <;> decide

theorem parseBoolLit_renderBool (b : Bool) : parseBoolLit (renderBool b) = b := by
  cases b <;> decide

/-- An all-integer-literal raw column is inferred as int64. -/
theorem readCol_int {α : Type} (f : α → Int) (l : List α) :
    readCol (l.map (fun x => renderInt (f x))) = l.map (fun x => Value.int (f x)) := by
  have hall : (l.map (fun x => renderInt (f x))).all isIntLit = true := by
    simp [List.all_eq_true]
    intro x _
    exact isIntLit_renderInt (f x)
  rw [readCol, if_pos hall]
  simp [List.map_map, Function.comp, parseIntLit_renderInt]

/-- An all-boolean-literal raw column is inferred as bool. -/
theorem readCol_bool {α : Type} (f : α → Bool) (l : List α) :
    readCol (l.map (fun x => renderBool (f x))) = l.map (fun x => Value.bool (f x)) := by
  cases l with
  | nil => rfl
  | cons a l =>
    rw [readCol]
    rw [if_neg (by simp [isIntLit_renderBool]),
      if_neg (by simp [isIntLit_renderBool, isNaTok_renderBool]),
      if_neg (by simp [isIntLit_renderBool, isFloatLit_renderBool, isNaTok_renderBool]),
      if_pos (by simp [List.all_eq_true, isBoolLit_renderBool])]
    simp [List.map_map, Function.comp, parseBoolLit_renderBool]

/-- Every branch of `readCol` maps, so the row count is preserved. -/
theorem readCol_length (raws : List String) : (readCol raws).length = raws.length := by
  rw [readCol]
  split_ifs <;> simp

theorem mapMOpt_congr_some {α β : Type} {f : α → Option β} {g : α → β} :
    ∀ {l : List α}, (∀ x ∈ l, f x = some (g x)) → mapMOpt f l = some (l.map g) := by
  intro l
  induction l with
  | nil => intro _; rfl
  | cons a l ih =>
    intro h
    rw [mapMOpt, h a (List.mem_cons_self a l), ih (fun x hx => h x (List.mem_cons_of_mem a hx))]
    simp

@[simp] theorem mapMOpt_intCoerce {α : Type} (d : Int) (f : α → Int) (l : List α) :
    mapMOpt (intCoerceCell d) (l.map (fun x => Value.int (f x))) =
      some (l.map (fun x => Value.int (f x))) := by
  rw [mapMOpt_congr_some (g := id) (fun x hx => ?_), List.map_id]
  obtain ⟨y, _, rfl⟩ := List.mem_map.mp hx
  rfl

/-- Filtering all columns of a canonical frame by a mask computed from one
of them acts as a `filter` on the underlying records. -/
theorem applyMask_map {α β : Type} (p : α → Bool) (f : α → β) :
    ∀ l : List α, applyMask (l.map p) (l.map f) = (l.filter p).map f := by
  intro l
  induction l with
  | nil => rfl
  | cons a l ih =>
    by_cases h : p a <;> simp [applyMask, List.filter_cons, h, ih]

theorem seriesSum_eq_sum (vs : List Value) : seriesSum vs = (vs.map valueNum).sum := by
  suffices h : ∀ (a : Int), vs.foldl (fun a v => a + valueNum v) a = a + (vs.map valueNum).sum by
    simpa [seriesSum] using h 0
  induction vs with
  | nil => intro a; simp
  | cons v vs ih => intro a; simp [List.foldl_cons, ih, add_assoc]

theorem seriesSum_map_int {α : Type} (f : α → Int) (l : List α) :
    seriesSum (l.map (fun x => Value.int (f x))) = (l.map f).sum := by
  simp [seriesSum_eq_sum, List.map_map, Function.comp_def, valueNum]

theorem length_filter_add_length_filter_not {α : Type} (p : α → Bool) :
    ∀ l : List α, (l.filter p).length + (l.filter (fun x => !p x)).length = l.length := by
  intro l
  induction l with
  | nil => rfl
  | cons a l ih =>
    by_cases h : p a <;> simp [List.filter_cons, h] <;> omega

/-- Dropping the zero entries of a nonnegative list does not change its sum. -/
theorem sum_filter_pos {α : Type} (f : α → Int) :
    ∀ l : List α, (∀ x ∈ l, 0 ≤ f x) →
      (((l.filter (fun x => decide (0 < f x))).map f).sum = (l.map f).sum) := by
  intro l
  induction l with
  | nil => intro _; rfl
  | cons a l ih =>
    intro h
    have ha := h a (List.mem_cons_self a l)
    have hl := fun x hx => h x (List.mem_cons_of_mem a hx)
    by_cases hpos : 0 < f a
    · simp [List.filter_cons, hpos, ih hl]
    · have hz : f a = 0 := le_antisymm (not_lt.mp hpos) ha
      simp [List.filter_cons, hpos, ih hl, hz]

/-! ## The canonical round trip -/

/-- A frame with exactly the canonical column names has no legacy column,
so migration is a no-op. -/
theorem migrate_canonical (c1 c2 c3 c4 c5 c6 c7 c8 c9 : List Value) :
    migrate
      [("Name", c1), ("Category", c2), ("City", c3), ("Mobile", c4), ("Event", c5),
       ("Headcount", c6), ("Rooms Required", c7), ("Invite Given", c8), ("Notes", c9)] =
      [("Name", c1), ("Category", c2), ("City", c3), ("Mobile", c4), ("Event", c5),
       ("Headcount", c6), ("Rooms Required", c7), ("Invite Given", c8), ("Notes", c9)] := by
  simp [migrate, hasCol]

/-- A frame with exactly the canonical column names needs no completion. -/
theorem complete_canonical (c1 c2 c3 c4 c5 c6 c7 c8 c9 : List Value) :
    complete
      [("Name", c1), ("Category", c2), ("City", c3), ("Mobile", c4), ("Event", c5),
       ("Headcount", c6), ("Rooms Required", c7), ("Invite Given", c8), ("Notes", c9)] =
      [("Name", c1), ("Category", c2), ("City", c3), ("Mobile", c4), ("Event", c5),
       ("Headcount", c6), ("Rooms Required", c7), ("Invite Given", c8), ("Notes", c9)] := by
  simp [complete, COLUMNS, hasCol]

/-- Type coercion on a frame with the canonical column names, given that
the two numeric columns convert successfully. -/
theorem coerceTypes_canonical (t1 t2 t3 t4 t5 : List Value) (ch cr ci t6 ch' cr' : List Value)
    (hh : mapMOpt (intCoerceCell 1) ch = some ch')
    (hr : mapMOpt (intCoerceCell 0) cr = some cr') :
    coerceTypes
      [("Name", t1), ("Category", t2), ("City", t3), ("Mobile", t4), ("Event", t5),
       ("Headcount", ch), ("Rooms Required", cr), ("Invite Given", ci), ("Notes", t6)] =
      some
        [("Name", t1.map textCoerceCell), ("Category", t2.map textCoerceCell),
         ("City", t3.map textCoerceCell), ("Mobile", t4.map textCoerceCell),
         ("Event", t5.map textCoerceCell), ("Headcount", ch'), ("Rooms Required", cr'),
         ("Invite Given", ci.map boolCoerceCell), ("Notes", t6.map textCoerceCell)] := by
  simp [coerceTypes, text_cols, mapCol, mapColO, mapMOpt, hh, hr]

/-- Projecting a frame that already has exactly the canonical columns in
canonical order is the identity. -/
theorem reindex_canonical (c1 c2 c3 c4 c5 c6 c7 c8 c9 : List Value) :
    reindex COLUMNS
      [("Name", c1), ("Category", c2), ("City", c3), ("Mobile", c4), ("Event", c5),
       ("Headcount", c6), ("Rooms Required", c7), ("Invite Given", c8), ("Notes", c9)] =
      some
        [("Name", c1), ("Category", c2), ("City", c3), ("Mobile", c4), ("Event", c5),
         ("Headcount", c6), ("Rooms Required", c7), ("Invite Given", c8), ("Notes", c9)] := by
  simp [reindex, COLUMNS, mapMOpt, getCol?]

/-- Saving a canonical normalized table and loading it back returns the
table unchanged, provided every text column survives dtype inference. -/
theorem load_data_savedFile (gs : List Guest)
    (hName : textRoundTrips (gs.map (fun g => g.name)))
    (hCategory : textRoundTrips (gs.map (fun g => g.category)))
    (hCity : textRoundTrips (gs.map (fun g => g.city)))
    (hMobile : textRoundTrips (gs.map (fun g => g.mobile)))
    (hEvent : textRoundTrips (gs.map (fun g => g.event)))
    (hNotes : textRoundTrips (gs.map (fun g => g.notes))) :
    load_data (some (savedFile (frameOfGuests gs))) = some (frameOfGuests gs) := by
  unfold textRoundTrips at hName hCategory hCity hMobile hEvent hNotes
  have hfile : savedFile (frameOfGuests gs) =
      [("Name", gs.map (fun g => g.name)),
       ("Category", gs.map (fun g => g.category)),
       ("City", gs.map (fun g => g.city)),
       ("Mobile", gs.map (fun g => g.mobile)),
       ("Event", gs.map (fun g => g.event)),
       ("Headcount", gs.map (fun g => renderInt g.headcount)),
       ("Rooms Required", gs.map (fun g => renderInt g.rooms)),
       ("Invite Given", gs.map (fun g => renderBool g.invite)),
       ("Notes", gs.map (fun g => g.notes))] := by
    simp [savedFile, writeCsv, frameOfGuests, List.map_map, Function.comp_def]
  simp only [load_data, hfile, read_csv, List.map_cons, List.map_nil]
  rw [readCol_int (fun g => g.headcount) gs, readCol_int (fun g => g.rooms) gs,
    readCol_bool (fun g => g.invite) gs, migrate_canonical, complete_canonical,
    coerceTypes_canonical _ _ _ _ _ _ _ _ _ _ _
      (mapMOpt_intCoerce 1 (fun g => g.headcount) gs) (mapMOpt_intCoerce 0 (fun g => g.rooms) gs),
    hName, hCategory, hCity, hMobile, hEvent, hNotes]
  simp only [Option.some_bind]
  rw [reindex_canonical]
  simp [frameOfGuests, List.map_map, Function.comp_def]

@[simp] theorem accToRooms_bool (b : Bool) :
    accToRooms (Value.bool b) = Value.int (if b then 1 else 0) := by
  cases b <;> rfl

theorem mapMOpt_intCoerce_replicate (d k : Int) (N : Nat) :
    mapMOpt (intCoerceCell d) (List.replicate N (Value.int k)) =
      some (List.replicate N (Value.int k)) := by
  rw [mapMOpt_congr_some (g := id) (fun x hx => ?_), List.map_id]
  rw [List.eq_of_mem_replicate hx]
  rfl

/-! ### Column-tracking lemmas for the load pipeline

These follow one column through every stage of `load_data`, for the
migration claim stated over an arbitrary stored file. -/

theorem getCol?_read_csv (f : CsvFile) (c : String) :
    getCol? (read_csv f) c = (getCol? f c).map readCol := by
  induction f with
  | nil => rfl
  | cons p ps ih =>
    by_cases h : p.1 = c
    · simp [read_csv, getCol?, h]
    · simp only [read_csv, List.map_cons, getCol?, if_neg h]
      simpa [read_csv] using ih

theorem hasCol_read_csv (f : CsvFile) (c : String) :
    hasCol (read_csv f) c = hasCol f c := by
  induction f with
  | nil => rfl
  | cons p ps ih =>
    by_cases h : p.1 = c
    · simp [read_csv, hasCol, h]
    · simp only [read_csv, List.map_cons, hasCol, if_neg h]
      simpa [read_csv] using ih

theorem hasCol_of_getCol? {α : Type} {df : List (String × α)} {c : String} {v : α}
    (h : getCol? df c = some v) : hasCol df c = true := by
  induction df with
  | nil => simp [getCol?] at h
  | cons p ps ih =>
    by_cases hp : p.1 = c
    · rw [hasCol, if_pos hp]
    · rw [getCol?, if_neg hp] at h
      rw [hasCol, if_neg hp]
      exact ih h

theorem getCol?_append_left {α : Type} {df : List (String × α)} {c : String} {v : α}
    (e : List (String × α)) (h : getCol? df c = some v) : getCol? (df ++ e) c = some v := by
  induction df with
  | nil => simp [getCol?] at h
  | cons p ps ih =>
    by_cases hp : p.1 = c
    · rw [getCol?, if_pos hp] at h
      rw [List.cons_append, getCol?, if_pos hp]
      exact h
    · rw [getCol?, if_neg hp] at h
      rw [List.cons_append, getCol?, if_neg hp]
      exact ih h

theorem getCol?_setCol_self (df : Frame) (c : String) (vs : List Value) :
    getCol? (setCol df c vs) c = some vs := by
  rw [setCol]
  by_cases h : hasCol df c
  · rw [if_pos h]
    induction df with
    | nil => simp [hasCol] at h
    | cons p ps ih =>
      by_cases hp : p.1 = c
      · simp [getCol?, hp]
      · rw [hasCol, if_neg hp] at h
        simp only [List.map_cons, if_neg hp, getCol?]
        exact ih h
  · rw [if_neg h]
    induction df with
    | nil => simp [getCol?]
    | cons p ps ih =>
      by_cases hp : p.1 = c
      · exact absurd (by rw [hasCol, if_pos hp] : hasCol (p :: ps) c = true) h
      · rw [List.cons_append, getCol?, if_neg hp]
        exact ih (fun hps => h (by rw [hasCol, if_neg hp]; exact hps))

theorem getCol?_mapCol_other {cn c : String} (g : Value → Value) (df : Frame) (hne : cn ≠ c) :
    getCol? (mapCol cn g df) c = getCol? df c := by
  induction df with
  | nil => rfl
  | cons p ps ih =>
    by_cases hp : p.1 = c
    · have hpcn : ¬(p.1 = cn) := fun hh => hne (by rw [← hh]; exact hp)
      simp only [mapCol, List.map_cons, if_neg hpcn, getCol?, if_pos hp]
    · by_cases hcn : p.1 = cn
      · simp only [mapCol, List.map_cons, if_pos hcn, getCol?, if_neg hp]
        simpa [mapCol] using ih
      · simp only [mapCol, List.map_cons, if_neg hcn, getCol?, if_neg hp]
        simpa [mapCol] using ih

theorem textFold_getCol? (L : List String) (h : Value → Value) (c : String)
    (hnot : c ∉ L) : ∀ df : Frame,
    getCol? (L.foldl (fun d c2 => mapCol c2 h d) df) c = getCol? df c := by
  induction L with
  | nil => intro df; rfl
  | cons c0 L ih =>
    intro df
    rw [List.foldl_cons]
    have hc0 : c0 ≠ c := fun he => hnot (he ▸ List.mem_cons_self c0 L)
    rw [ih (fun hm => hnot (List.mem_cons_of_mem c0 hm)), getCol?_mapCol_other h df hc0]

theorem complete_getCol? {df : Frame} {c : String} {v : List Value}
    (h : getCol? df c = some v) : getCol? (complete df) c = some v := by
  rw [complete]
  suffices hgen : ∀ (L : List String) (d : Frame), getCol? d c = some v →
      getCol? (L.foldl
        (fun d c2 => if hasCol d c2 then d
          else setCol d c2 (List.replicate (nrows d) (defaultCell c2))) d) c = some v by
    exact hgen COLUMNS df h
  intro L
  induction L with
  | nil => intro d hd; exact hd
  | cons c0 L ih =>
    intro d hd
    rw [List.foldl_cons]
    apply ih
    by_cases hc : hasCol d c0
    · rw [if_pos hc]; exact hd
    · rw [if_neg hc, setCol, if_neg hc]
      exact getCol?_append_left _ hd

/-- Structure of a successful guarded column update: the header is
unchanged, other columns are untouched, and the named column is mapped. -/
theorem mapColO_some {cn : String} {g : Value → Option Value} {df df2 : Frame}
    (h : mapColO cn g df = some df2) :
    df2.map Prod.fst = df.map Prod.fst ∧
    (∀ c, c ≠ cn → getCol? df2 c = getCol? df c) ∧
    (∀ v, getCol? df cn = some v →
      ∃ w, mapMOpt g v = some w ∧ getCol? df2 cn = some w) := by
  induction df generalizing df2 with
  | nil =>
    rw [mapColO, mapMOpt] at h
    injection h with h
    subst h
    exact ⟨rfl, fun c _ => rfl, fun v hv => by simp [getCol?] at hv⟩
  | cons p ps ih =>
    rw [mapColO, mapMOpt] at h
    by_cases hp : p.1 = cn
    · simp only [if_pos hp] at h
      cases hg : mapMOpt g p.2 with
      | none => rw [hg] at h; simp at h
      | some w =>
        rw [hg] at h
        cases hps : mapMOpt
            (fun q => if q.1 = cn then (mapMOpt g q.2).map (fun vs => (q.1, vs)) else some q) ps with
        | none => rw [hps] at h; simp at h
        | some rest =>
          rw [hps] at h
          simp only [Option.map_some'] at h
          injection h with h
          subst h
          have hrec := ih (by rw [mapColO]; exact hps)
          refine ⟨by simp [hrec.1], ?_, ?_⟩
          · intro c hc
            have hpc : ¬(p.1 = c) := fun hh => hc (by rw [← hh]; exact hp)
            simp only [getCol?, if_neg hpc]
            exact hrec.2.1 c hc
          · intro v hv
            rw [getCol?, if_pos hp] at hv
            injection hv with hv
            subst hv
            exact ⟨w, hg, by rw [getCol?, if_pos hp]⟩
    · simp only [if_neg hp] at h
      cases hps : mapMOpt
          (fun q => if q.1 = cn then (mapMOpt g q.2).map (fun vs => (q.1, vs)) else some q) ps with
      | none => rw [hps] at h; simp at h
      | some rest =>
        rw [hps] at h
        injection h with h
        subst h
        have hrec := ih (by rw [mapColO]; exact hps)
        refine ⟨by simp [hrec.1], ?_, ?_⟩
        · intro c hc
          by_cases hpc : p.1 = c
          · simp [getCol?, hpc]
          · simp only [getCol?, if_neg hpc]
            exact hrec.2.1 c hc
        · intro v hv
          rw [getCol?, if_neg hp] at hv
          obtain ⟨w, hgw, hcol⟩ := hrec.2.2 v hv
          exact ⟨w, hgw, by rw [getCol?, if_neg hp]; exact hcol⟩

theorem reindex_names {cs : List String} {d g : Frame} (h : reindex cs d = some g) :
    g.map Prod.fst = cs := by
  induction cs generalizing g with
  | nil =>
    rw [reindex, mapMOpt] at h
    injection h with h
    subst h
    rfl
  | cons c cs ih =>
    rw [reindex, mapMOpt] at h
    cases hv : getCol? d c with
    | none => rw [hv] at h; simp at h
    | some v =>
      rw [hv] at h
      cases hrest : mapMOpt (fun c2 => (getCol? d c2).map (fun vs => (c2, vs))) cs with
      | none => rw [hrest] at h; simp at h
      | some rest =>
        rw [hrest] at h
        simp only [Option.map_some'] at h
        injection h with h
        subst h
        simp [ih (by rw [reindex]; exact hrest)]

theorem reindex_getCol? {cs : List String} {d g : Frame} (h : reindex cs d = some g) :
    ∀ c ∈ cs, getCol? g c = getCol? d c := by
  induction cs generalizing g with
  | nil => intro c hc; simp at hc
  | cons c0 cs ih =>
    rw [reindex, mapMOpt] at h
    cases hv : getCol? d c0 with
    | none => rw [hv] at h; simp at h
    | some v =>
      rw [hv] at h
      cases hrest : mapMOpt (fun c2 => (getCol? d c2).map (fun vs => (c2, vs))) cs with
      | none => rw [hrest] at h; simp at h
      | some rest =>
        rw [hrest] at h
        simp only [Option.map_some'] at h
        injection h with h
        subst h
        intro c hc
        by_cases hcc : c0 = c
        · subst hcc
          rw [getCol?, if_pos rfl, hv]
        · rw [getCol?, if_neg hcc]
          rcases List.mem_cons.mp hc with rfl | hmem
          · exact absurd rfl hcc
          · exact ih (by rw [reindex]; exact hrest) c hmem

/-! ## Claim theorems -/

/-- C3: a stored table with only a `Name` column loads with every other
canonical column added and filled with its type default: `Headcount` 1,
`Rooms Required` 0, `Invite Given` false, and the empty string for every
other (text) column, in every row. -/
theorem C3_missing_column_completion (raws : List String) :
    load_data (some [("Name", raws)]) =
      some [("Name", (readCol raws).map textCoerceCell),
            ("Category", List.replicate raws.length (Value.str "")),
            ("City", List.replicate raws.length (Value.str "")),
            ("Mobile", List.replicate raws.length (Value.str "")),
            ("Event", List.replicate raws.length (Value.str "")),
            ("Headcount", List.replicate raws.length (Value.int 1)),
            ("Rooms Required", List.replicate raws.length (Value.int 0)),
            ("Invite Given", List.replicate raws.length (Value.bool false)),
            ("Notes", List.replicate raws.length (Value.str ""))] := by
  have hmig : migrate [("Name", readCol raws)] = [("Name", readCol raws)] := by
    simp [migrate, hasCol]
  have hcom : complete [("Name", readCol raws)] =
      [("Name", readCol raws),
       ("Category", List.replicate raws.length (Value.str "")),
       ("City", List.replicate raws.length (Value.str "")),
       ("Mobile", List.replicate raws.length (Value.str "")),
       ("Event", List.replicate raws.length (Value.str "")),
       ("Headcount", List.replicate raws.length (Value.int 1)),
       ("Rooms Required", List.replicate raws.length (Value.int 0)),
       ("Invite Given", List.replicate raws.length (Value.bool false)),
       ("Notes", List.replicate raws.length (Value.str ""))] := by
    simp [complete, COLUMNS, hasCol, setCol, nrows, defaultCell, readCol_length]
  simp only [load_data, read_csv, List.map_cons, List.map_nil, hmig, hcom]
  rw [coerceTypes_canonical _ _ _ _ _ _ _ _ _ _ _
    (mapMOpt_intCoerce_replicate 1 1 raws.length) (mapMOpt_intCoerce_replicate 0 0 raws.length)]
  simp only [Option.some_bind, List.map_replicate, textCoerceCell_str, boolCoerceCell_bool]
  rw [reindex_canonical]

/-- C2: for every stored file that contains a boolean legacy
`Accommodation Needed` column and no `Rooms Required` column, whatever
other columns it has, `load_data` (when it succeeds) returns a table
whose `Rooms Required` value is 1 on every row where the legacy value was
true and 0 where it was false, and with no `Accommodation Needed`
column. -/
theorem C2_legacy_migration (f : CsvFile) (bs : List Bool)
    (hacc : getCol? f "Accommodation Needed" = some (bs.map (fun b => renderBool b)))
    (hnorooms : hasCol f "Rooms Required" = false) :
    ∀ g : Frame, load_data (some f) = some g →
      getCol? g "Rooms Required" = some (bs.map (fun b => Value.int (if b then 1 else 0))) ∧
      "Accommodation Needed" ∉ g.map Prod.fst := by
  intro g hload
  have hr1 : getCol? (read_csv f) "Accommodation Needed" =
      some (bs.map (fun b => Value.bool b)) := by
    rw [getCol?_read_csv, hacc]
    simp only [Option.map_some']
    rw [readCol_bool (fun b => b) bs]
  have hr2 : hasCol (read_csv f) "Accommodation Needed" = true := hasCol_of_getCol? hr1
  have hr3 : hasCol (read_csv f) "Rooms Required" = false := by
    rw [hasCol_read_csv]; exact hnorooms
  have hmig : migrate (read_csv f) = setCol (read_csv f) "Rooms Required"
      (bs.map (fun b => Value.int (if b then 1 else 0))) := by
    rw [migrate, if_pos (by rw [hr2, hr3]; rfl)]
    rw [getColD, hr1]
    simp [List.map_map, Function.comp_def]
  have h5 : getCol? (complete (migrate (read_csv f))) "Rooms Required" =
      some (bs.map (fun b => Value.int (if b then 1 else 0))) := by
    apply complete_getCol?
    rw [hmig]
    exact getCol?_setCol_self _ _ _
  simp only [load_data] at hload
  obtain ⟨dc, hcoe, hrei⟩ := Option.bind_eq_some.mp hload
  simp only [coerceTypes] at hcoe
  obtain ⟨d2, hH, hrest⟩ := Option.bind_eq_some.mp hcoe
  obtain ⟨d3, hR2, hd3⟩ := Option.map_eq_some'.mp hrest
  have h6 : getCol? (text_cols.foldl (fun d c2 => mapCol c2 textCoerceCell d)
      (complete (migrate (read_csv f)))) "Rooms Required" =
      some (bs.map (fun b => Value.int (if b then 1 else 0))) := by
    rw [textFold_getCol? text_cols textCoerceCell "Rooms Required" (by decide)]
    exact h5
  have h7 : getCol? d2 "Rooms Required" =
      some (bs.map (fun b => Value.int (if b then 1 else 0))) := by
    rw [(mapColO_some hH).2.1 "Rooms Required" (by decide)]
    exact h6
  have h8 : getCol? d3 "Rooms Required" =
      some (bs.map (fun b => Value.int (if b then 1 else 0))) := by
    obtain ⟨w, hgw, hcol⟩ := (mapColO_some hR2).2.2 _ h7
    rw [mapMOpt_intCoerce 0 (fun b => if b then 1 else 0) bs] at hgw
    simp only [Option.some.injEq] at hgw
    subst hgw
    exact hcol
  have h9 : getCol? dc "Rooms Required" =
      some (bs.map (fun b => Value.int (if b then 1 else 0))) := by
    rw [← hd3, getCol?_mapCol_other boolCoerceCell d3 (by decide)]
    exact h8
  refine ⟨?_, ?_⟩
  · rw [reindex_getCol? hrei "Rooms Required" (by decide)]
    exact h9
  · rw [reindex_names hrei]
    decide

/-- C2 witness: a three-column old-schema file holding the spec's legacy
values true/false/true loads with `Rooms Required` 1, 0, 1 and without
the legacy column. -/
theorem C2_legacy_migration_witness :
    getCol? [("Name", ["Amma", "Ravi", "Meena"]), ("City", ["Salem", "", "Erode"]),
        ("Accommodation Needed", ["True", "False", "True"])] "Accommodation Needed" =
      some ([true, false, true].map (fun b => renderBool b)) ∧
    hasCol [("Name", ["Amma", "Ravi", "Meena"]), ("City", ["Salem", "", "Erode"]),
        ("Accommodation Needed", ["True", "False", "True"])] "Rooms Required" = false ∧
    load_data (some [("Name", ["Amma", "Ravi", "Meena"]), ("City", ["Salem", "", "Erode"]),
        ("Accommodation Needed", ["True", "False", "True"])]) =
      some [("Name", [Value.str "Amma", Value.str "Ravi", Value.str "Meena"]),
            ("Category", [Value.str "", Value.str "", Value.str ""]),
            ("City", [Value.str "Salem", Value.str "", Value.str "Erode"]),
            ("Mobile", [Value.str "", Value.str "", Value.str ""]),
            ("Event", [Value.str "", Value.str "", Value.str ""]),
            ("Headcount", [Value.int 1, Value.int 1, Value.int 1]),
            ("Rooms Required", [Value.int 1, Value.int 0, Value.int 1]),
            ("Invite Given", [Value.bool false, Value.bool false, Value.bool false]),
            ("Notes", [Value.str "", Value.str "", Value.str ""])] ∧
    (getCol? [("Name", [Value.str "Amma", Value.str "Ravi", Value.str "Meena"]),
            ("Category", [Value.str "", Value.str "", Value.str ""]),
            ("City", [Value.str "Salem", Value.str "", Value.str "Erode"]),
            ("Mobile", [Value.str "", Value.str "", Value.str ""]),
            ("Event", [Value.str "", Value.str "", Value.str ""]),
            ("Headcount", [Value.int 1, Value.int 1, Value.int 1]),
            ("Rooms Required", [Value.int 1, Value.int 0, Value.int 1]),
            ("Invite Given", [Value.bool false, Value.bool false, Value.bool false]),
            ("Notes", [Value.str "", Value.str "", Value.str ""])] "Rooms Required" =
        some ([true, false, true].map (fun b => Value.int (if b then 1 else 0))) ∧
      "Accommodation Needed" ∉
        (([("Name", [Value.str "Amma", Value.str "Ravi", Value.str "Meena"]),
           ("Category", [Value.str "", Value.str "", Value.str ""]),
           ("City", [Value.str "Salem", Value.str "", Value.str "Erode"]),
           ("Mobile", [Value.str "", Value.str "", Value.str ""]),
           ("Event", [Value.str "", Value.str "", Value.str ""]),
           ("Headcount", [Value.int 1, Value.int 1, Value.int 1]),
           ("Rooms Required", [Value.int 1, Value.int 0, Value.int 1]),
           ("Invite Given", [Value.bool false, Value.bool false, Value.bool false]),
           ("Notes", [Value.str "", Value.str "", Value.str ""])] : Frame).map Prod.fst)) :=
  ⟨by decide, by decide, by decide,
    C2_legacy_migration
      [("Name", ["Amma", "Ravi", "Meena"]), ("City", ["Salem", "", "Erode"]),
       ("Accommodation Needed", ["True", "False", "True"])]
      [true, false, true] (by decide) (by decide) _ (by decide)⟩

/-- The row mask `df["Rooms Required"] > 0` on a canonical table. -/
theorem roomsMask (gs : List Guest) :
    List.map pyGtZero (List.map (fun g => Value.int g.rooms) gs) =
      List.map (fun g => decide (0 < g.rooms)) gs := by
  simp [List.map_map, Function.comp_def, pyGtZero]

/-- The row mask `df["Invite Given"] == True` on a canonical table. -/
theorem inviteMask (gs : List Guest) :
    List.map pyEqTrue (List.map (fun g => Value.bool g.invite) gs) =
      List.map (fun g => g.invite) gs := by
  simp [List.map_map, Function.comp_def, pyEqTrue]

/-- The row mask `df["Event"].isin(opts)` on a canonical table. -/
theorem eventMask (gs : List Guest) (opts : List String) :
    List.map (fun v => valueIsin v opts) (List.map (fun g => Value.str g.event) gs) =
      List.map (fun g => opts.contains g.event) gs := by
  simp [List.map_map, Function.comp_def, valueIsin]

/-- Computation of `room_df` on a canonical table: filter the records, project four columns. -/
theorem room_df_frameOfGuests (gs : List Guest) :
    room_df (frameOfGuests gs) =
      some [("Name", (gs.filter (fun g => 0 < g.rooms)).map (fun g => Value.str g.name)),
            ("City", (gs.filter (fun g => 0 < g.rooms)).map (fun g => Value.str g.city)),
            ("Rooms Required", (gs.filter (fun g => 0 < g.rooms)).map (fun g => Value.int g.rooms)),
            ("Mobile", (gs.filter (fun g => 0 < g.rooms)).map (fun g => Value.str g.mobile))] := by
  simp only [room_df, frameOfGuests, getColD, getCol?, filterFrame, List.map_cons, List.map_nil,
    String.reduceEq, reduceIte, Option.getD_some]
  simp only [roomsMask]
  simp only [reindex, mapMOpt, getCol?]
  simp [applyMask_map]

/-- C4: `reception_total` sums `Headcount` over records with `Event`
`Reception` or `Both`, `wedding_total` over `Wedding (Mugurtham)` or
`Both`; a record with `Event` `Both` counts fully in both totals, so a
single `Both` record with headcount 5 gives 5 reception and 5 wedding
plates. -/
theorem C4_catering_double_count (gs : List Guest) :
    (reception_total (frameOfGuests gs) =
      ((gs.filter (fun g => g.event = "Reception" ∨ g.event = "Both")).map
        (fun g => g.headcount)).sum ∧
     wedding_total (frameOfGuests gs) =
      ((gs.filter (fun g => g.event = "Wedding (Mugurtham)" ∨ g.event = "Both")).map
        (fun g => g.headcount)).sum) ∧
    reception_total (frameOfGuests [⟨"A", "Family", "X", "9", "Both", 5, 0, false, ""⟩]) = 5 ∧
    wedding_total (frameOfGuests [⟨"A", "Family", "X", "9", "Both", 5, 0, false, ""⟩]) = 5 := by
  refine ⟨⟨?_, ?_⟩, by decide, by decide⟩ <;>
  · simp only [reception_total, wedding_total, frameOfGuests, getColD, getCol?, filterFrame,
      List.map_cons, List.map_nil, String.reduceEq, reduceIte, Option.getD_some]
    simp only [eventMask]
    simp [applyMask_map, seriesSum_map_int, List.contains, Bool.decide_or]

/-- C5: `room_df` is exactly the subsequence of records with
`Rooms Required` greater than 0, in original order, projected to the four
columns `Name`, `City`, `Rooms Required`, `Mobile`. -/
theorem C5_rooms_filter (gs : List Guest) :
    room_df (frameOfGuests gs) =
      some [("Name", (gs.filter (fun g => 0 < g.rooms)).map (fun g => Value.str g.name)),
            ("City", (gs.filter (fun g => 0 < g.rooms)).map (fun g => Value.str g.city)),
            ("Rooms Required", (gs.filter (fun g => 0 < g.rooms)).map (fun g => Value.int g.rooms)),
            ("Mobile", (gs.filter (fun g => 0 < g.rooms)).map (fun g => Value.str g.mobile))] :=
  room_df_frameOfGuests gs

/-- C6: `invites_sent` counts the records with `Invite Given` true,
`pending` the ones with it false, and for every table
`invites_sent + pending = total_families`. -/
theorem C6_pending_invariant (gs : List Guest) :
    invites_sent (frameOfGuests gs) = (gs.filter (fun g => g.invite)).length ∧
    pending (frameOfGuests gs) = ((gs.filter (fun g => !g.invite)).length : Int) ∧
    ∀ df : Frame, (invites_sent df : Int) + pending df = (total_families df : Int) := by
  have hsent : invites_sent (frameOfGuests gs) = (gs.filter (fun g => g.invite)).length := by
    simp only [invites_sent, frameOfGuests, getColD, getCol?, filterFrame, List.map_cons,
      List.map_nil, nrows, String.reduceEq, reduceIte, Option.getD_some]
    simp only [inviteMask]
    simp [applyMask_map]
  refine ⟨hsent, ?_, fun df => by simp [pending]⟩
  have hsplit := length_filter_add_length_filter_not (fun g => g.invite) gs
  have htot : total_families (frameOfGuests gs) = gs.length := by
    simp [total_families, frameOfGuests, nrows]
  simp only [pending, hsent, htot]
  omega

/-- C7: the download buffer `convert_df` produces is byte-for-byte the
UTF-8 encoding of the exact text `save_data` writes to the backing file:
both serialize with the same `to_csv(index=False)` call. -/
theorem C7_export_save_equivalence (df : Frame) :
    convert_df df = utf8Bytes (save_data df) := rfl

/-- C8: a submission whose required `Name` field is empty is silently
rejected: the table is returned unchanged and no save happens (the
handler is total, so no error value is produced either). -/
theorem C8_empty_name_rejected (data : Frame) (g : Guest) (h : g.name = "") :
    add_guest_submit data true g = (data, false) := by
  simp [add_guest_submit, h]

/-- C8 witness: a concrete empty-name submission leaves a one-guest table
unchanged and does not save. -/
theorem C8_empty_name_rejected_witness :
    (Guest.mk "" "Family" "" "" "Reception" 1 0 false "").name = "" ∧
    add_guest_submit (frameOfGuests [⟨"Bob", "Friend", "Salem", "9", "Both", 2, 0, false, ""⟩])
        true (Guest.mk "" "Family" "" "" "Reception" 1 0 false "") =
      (frameOfGuests [⟨"Bob", "Friend", "Salem", "9", "Both", 2, 0, false, ""⟩], false) :=
  ⟨rfl, C8_empty_name_rejected _ _ rfl⟩

/-- C9: when every record's `Rooms Required` is nonnegative, `total_rooms`
equals the sum of `Rooms Required` over the rows `room_df` returns,
because the rows filtered out contribute 0. -/
theorem C9_rooms_totals_agree (gs : List Guest) (h : ∀ g ∈ gs, 0 ≤ g.rooms) :
    ∃ r : Frame, room_df (frameOfGuests gs) = some r ∧
      total_rooms (frameOfGuests gs) = seriesSum (getColD r "Rooms Required") := by
  refine ⟨_, room_df_frameOfGuests gs, ?_⟩
  simp only [total_rooms, frameOfGuests, getColD, getCol?, String.reduceEq, reduceIte,
    Option.getD_some]
  simp only [seriesSum_map_int]
  exact (sum_filter_pos (fun g => g.rooms) gs h).symm

/-- C9 witness: totals agree on a concrete two-record table. -/
theorem C9_rooms_totals_agree_witness :
    (∀ g ∈ [(⟨"A", "Family", "X", "9", "Both", 5, 2, false, ""⟩ : Guest),
            ⟨"B", "Friend", "Y", "8", "Reception", 1, 0, true, ""⟩], 0 ≤ g.rooms) ∧
    ∃ r : Frame,
      room_df (frameOfGuests [⟨"A", "Family", "X", "9", "Both", 5, 2, false, ""⟩,
          ⟨"B", "Friend", "Y", "8", "Reception", 1, 0, true, ""⟩]) = some r ∧
      total_rooms (frameOfGuests [⟨"A", "Family", "X", "9", "Both", 5, 2, false, ""⟩,
          ⟨"B", "Friend", "Y", "8", "Reception", 1, 0, true, ""⟩]) =
        seriesSum (getColD r "Rooms Required") :=
  ⟨by decide, C9_rooms_totals_agree
    [⟨"A", "Family", "X", "9", "Both", 5, 2, false, ""⟩,
     ⟨"B", "Friend", "Y", "8", "Reception", 1, 0, true, ""⟩] (by decide)⟩

/-- C10: during migration, every legacy `Accommodation Needed` cell that
does not compare equal to Python `True` (missing values, unparseable text
tokens, any other value) is mapped to `Rooms Required` 0 — never 1 and
never an error (`accToRooms` is total). -/
theorem C10_migration_default (v : Value) (h : pyEqTrue v = false) :
    accToRooms v = Value.int 0 := by
  simp [accToRooms, h]

/-- C10 witness: a missing legacy value migrates to 0 rooms. -/
theorem C10_migration_default_witness :
    pyEqTrue Value.na = false ∧ accToRooms Value.na = Value.int 0 :=
  ⟨rfl, C10_migration_default Value.na rfl⟩

end WedsPlanner
